import Mathlib

/-!
Verification development for the Records-Store web application
(`src/api/models.py`, `src/api/routes.py`, `src/api/worker.py`,
`src/api/telemetry.py`, `src/api/metrics.py`).

The data model and every operation below are shallow embeddings translated
from the Python source: persistence is explicit state passing over lists of
rows, the Celery broker is an explicit queue with a task-id counter, raised
`HTTPException`s become `Except.error` values returned together with the
(unchanged) state, and the worker's exception/retry control flow becomes an
explicit fault parameter plus a bounded-retry driver mirroring Celery's
`max_retries=3` semantics.
-/

namespace RecordsStore

/-- Product row (`models.py`, table `products`): numeric id, name, price.
Price is a float column never used arithmetically by any operation modelled
here; it is carried as an integer number of currency units. -/
structure Product where
  id : Nat
  name : String
  price : Int
deriving DecidableEq

/-- Order row (`models.py`, table `orders`): numeric id, product reference,
quantity, status string (column default `"pending"`). -/
structure Order where
  id : Nat
  product_id : Nat
  quantity : Int
  status : String
deriving DecidableEq

/-- The relational store: the two tables plus the id sequence feeding
`orders.id` (SQLAlchemy autoincrement primary key / `RETURNING id`). -/
structure Db where
  products : List Product
  orders : List Order
  nextOrderId : Nat
deriving DecidableEq

/-- Task job envelope `{"product_id": .., "quantity": ..}` submitted to the
queue (`routes.py` checkout / process_specific_order; consumed by
`worker.py` `process_order`). -/
structure Job where
  product_id : Nat
  quantity : Int
deriving DecidableEq

/-- The broker-backed queue (external collaborator): pending jobs plus a
counter from which opaque correlation (task) ids are issued. -/
structure Broker where
  queue : List Job
  nextTaskId : Nat
deriving DecidableEq

/-- Rendering of a broker-issued correlation id as a string. -/
def taskId (n : Nat) : String := "task-" ++ Nat.repr n

/-- `process_order.delay(order_data)`: hand the job to the broker, get back
an opaque task id; non-blocking with respect to job completion. -/
def Broker.submit (b : Broker) (j : Job) : String × Broker :=
  (taskId b.nextTaskId, { queue := b.queue ++ [j], nextTaskId := b.nextTaskId + 1 })

/-- State visible to the HTTP process: the database, the broker, and the
FastAPI `BackgroundTasks` list of order ids scheduled for
`send_order_confirmation.delay` after the response is sent. -/
structure SysState where
  db : Db
  broker : Broker
  background : List Nat
deriving DecidableEq

/-- A raised `HTTPException(status_code, detail)`. -/
structure HTTPError where
  status_code : Nat
  detail : String
deriving DecidableEq

/-- Request body for `POST /checkout` and `POST /orders` (`OrderCreate`). -/
structure OrderCreate where
  product_id : Nat
  quantity : Int
deriving DecidableEq

/-- `db.query(Product).filter(Product.id == pid).first()`. -/
def findProduct (db : Db) (pid : Nat) : Option Product :=
  db.products.find? (fun p => p.id == pid)

/-- `db.query(Order).filter(Order.id == oid).first()`. -/
def findOrder (db : Db) (oid : Nat) : Option Order :=
  db.orders.find? (fun o => o.id == oid)

/-- Response body of a successful `POST /checkout` (`routes.py:200-204`). -/
structure CheckoutResponse where
  message : String
  order_id : Nat
  task_id : String
deriving DecidableEq

/-- `checkout` (`routes.py:134-222`): verify the product exists (404 and no
insert if not); optionally take the 20% synthetic `time.sleep` path, which
touches no state (`delayTaken` records which branch the `random.random()`
draw selected); insert one Order row relying on the model's `"pending"`
status default; submit a `process_order` job; schedule the fire-and-forget
confirmation task; return `{message, order_id, task_id}`. -/
def checkout (s : SysState) (req : OrderCreate) (delayTaken : Bool) :
    Except HTTPError CheckoutResponse × SysState :=
  match findProduct s.db req.product_id with
  | none =>
    (Except.error ⟨404, "Product with ID " ++ Nat.repr req.product_id ++ " not found"⟩, s)
  | some _ =>
    let _ := delayTaken
    let newOrder : Order :=
      { id := s.db.nextOrderId, product_id := req.product_id,
        quantity := req.quantity, status := "pending" }
    let db' : Db :=
      { s.db with orders := s.db.orders ++ [newOrder], nextOrderId := s.db.nextOrderId + 1 }
    let sub := s.broker.submit ⟨req.product_id, req.quantity⟩
    (Except.ok { message := "Order received, processing in the background",
                 order_id := newOrder.id, task_id := sub.1 },
     { db := db', broker := sub.2, background := s.background ++ [newOrder.id] })

/-- Response body of a successful `POST /orders` (`routes.py:285-289`). -/
structure CreateOrderResponse where
  message : String
  order_id : Nat
  status : String
deriving DecidableEq

/-- `create_order` (`routes.py:247-307`): same product-existence check as
checkout (404 and no insert on a missing product), then insert one Order
row with explicit `"pending"` status; no queue submission. -/
def create_order (s : SysState) (req : OrderCreate) :
    Except HTTPError CreateOrderResponse × SysState :=
  match findProduct s.db req.product_id with
  | none =>
    (Except.error ⟨404, "Product with ID " ++ Nat.repr req.product_id ++ " not found"⟩, s)
  | some _ =>
    let newOrder : Order :=
      { id := s.db.nextOrderId, product_id := req.product_id,
        quantity := req.quantity, status := "pending" }
    let db' : Db :=
      { s.db with orders := s.db.orders ++ [newOrder], nextOrderId := s.db.nextOrderId + 1 }
    (Except.ok { message := "Order created successfully",
                 order_id := newOrder.id, status := "pending" },
     { s with db := db' })

/-- Response body of a successful `POST /orders/{order_id}/process`
(`routes.py:349-353`). -/
structure ProcessOrderResponse where
  message : String
  order_id : Nat
  task_id : String
deriving DecidableEq

/-- `process_specific_order` (`routes.py:310-370`): look the order up (404
if absent), re-submit a `process_order` job built from the order's stored
`product_id` and `quantity`, return the new correlation id; the database is
not written on any path. -/
def process_specific_order (s : SysState) (order_id : Nat) :
    Except HTTPError ProcessOrderResponse × SysState :=
  match findOrder s.db order_id with
  | none =>
    (Except.error ⟨404, "Order with ID " ++ Nat.repr order_id ++ " not found"⟩, s)
  | some o =>
    let sub := s.broker.submit ⟨o.product_id, o.quantity⟩
    (Except.ok { message := "Order " ++ Nat.repr order_id ++ " processing triggered",
                 order_id := order_id, task_id := sub.1 },
     { s with broker := sub.2 })

/-- The worker's Prometheus instruments (`worker.py:33-50`), counted by
number of increments / observations: `TASK_COUNT{status=failed}`,
`TASK_COUNT{status=success}`, `TASK_FAILURE`, `TASK_DURATION`
observations, and `push_metrics()` calls. -/
structure WorkerMetrics where
  taskFailedCount : Nat
  taskSuccessCount : Nat
  taskFailureExc : Nat
  durationObs : Nat
  pushCount : Nat
deriving DecidableEq

/-- Ledger of storage connections opened and closed by the worker. -/
structure ConnLog where
  opened : Nat
  closed : Nat
deriving DecidableEq

/-- Fault injected into one execution of the worker's task body:
`connectFail` makes `get_db_connection()` raise before any connection is
opened; `queryFail` makes a `cur.execute` raise after the connection was
opened; `noFault` lets the body run to a return. -/
inductive StorageFault
  | noFault
  | connectFail
  | queryFail
deriving DecidableEq

/-- State carried across worker task executions. -/
structure WorkerState where
  db : Db
  metrics : WorkerMetrics
  conns : ConnLog
deriving DecidableEq

/-- Outcome of one execution of the `process_order` task body:
a normal return of `{"status": "failed", "reason": ..}`, a normal return of
`{"order_id": .., "status": "processed"}`, or an exception reaching the
`except` block (which calls `self.retry`). -/
inductive TaskOutcome
  | terminalFailure (reason : String)
  | succeeded (order_id : Nat)
  | raisedTransient
deriving DecidableEq

/-- One execution of the `process_order` task body (`worker.py:118-177`).
`connectFail`: `get_db_connection()` raises, the `except` block records
`TASK_COUNT{failed}`, `TASK_FAILURE`, `TASK_DURATION` and pushes, the
`finally` block sees no `conn` in scope, and `self.retry` is reached.
`queryFail`: same metrics, but a connection was opened first and the
`finally` block closes it. `noFault`: the product lookup either misses —
`TASK_COUNT{failed}` plus a push, a normal `product_not_found` return, no
retry — or hits, in which case a new Order row with status `"processed"`
is inserted, success metrics recorded and pushed; the `finally` block
closes the connection on both return paths. -/
def process_order (st : WorkerState) (fault : StorageFault) (job : Job) :
    TaskOutcome × WorkerState :=
  match fault with
  | .connectFail =>
    (TaskOutcome.raisedTransient,
     { st with metrics :=
        { st.metrics with
            taskFailedCount := st.metrics.taskFailedCount + 1,
            taskFailureExc := st.metrics.taskFailureExc + 1,
            durationObs := st.metrics.durationObs + 1,
            pushCount := st.metrics.pushCount + 1 } })
  | .queryFail =>
    (TaskOutcome.raisedTransient,
     { st with
        metrics :=
          { st.metrics with
              taskFailedCount := st.metrics.taskFailedCount + 1,
              taskFailureExc := st.metrics.taskFailureExc + 1,
              durationObs := st.metrics.durationObs + 1,
              pushCount := st.metrics.pushCount + 1 },
        conns := ⟨st.conns.opened + 1, st.conns.closed + 1⟩ })
  | .noFault =>
    match findProduct st.db job.product_id with
    | none =>
      (TaskOutcome.terminalFailure "product_not_found",
       { st with
          metrics :=
            { st.metrics with
                taskFailedCount := st.metrics.taskFailedCount + 1,
                pushCount := st.metrics.pushCount + 1 },
          conns := ⟨st.conns.opened + 1, st.conns.closed + 1⟩ })
    | some _ =>
      let newOrder : Order :=
        { id := st.db.nextOrderId, product_id := job.product_id,
          quantity := job.quantity, status := "processed" }
      (TaskOutcome.succeeded newOrder.id,
       { db := { st.db with orders := st.db.orders ++ [newOrder],
                            nextOrderId := st.db.nextOrderId + 1 },
         metrics :=
           { st.metrics with
               taskSuccessCount := st.metrics.taskSuccessCount + 1,
               durationObs := st.metrics.durationObs + 1,
               pushCount := st.metrics.pushCount + 1 },
         conns := ⟨st.conns.opened + 1, st.conns.closed + 1⟩ })

/-- Aggregate result of Celery running the task with its retry policy:
final outcome, number of executions of the task body, the `countdown`
values of the retries that were scheduled, whether the retry bound was
exhausted (Celery raises `MaxRetriesExceededError` to the broker's error
handling), and the final worker state. -/
structure RunResult where
  outcome : TaskOutcome
  attempts : Nat
  retriesScheduled : List Nat
  exhausted : Bool
  final : WorkerState
deriving DecidableEq

/-- Celery's bounded-retry driver around the task body: `faultAt n` is the
fault injected into the execution whose `self.request.retries` equals `n`.
A `self.retry(exc=e, countdown=5)` call re-schedules the task while retries
remain and escalates to the broker once they are exhausted
(`max_retries=3` on the task decorator, `worker.py:118`). -/
def run_process_order (faultAt : Nat → StorageFault) (job : Job) :
    WorkerState → Nat → Nat → RunResult
  | st, attempt, 0 =>
    let r := process_order st (faultAt attempt) job
    match r.1 with
    | .raisedTransient => ⟨.raisedTransient, 1, [], true, r.2⟩
    | o => ⟨o, 1, [], false, r.2⟩
  | st, attempt, n + 1 =>
    let r := process_order st (faultAt attempt) job
    match r.1 with
    | .raisedTransient =>
      let rest := run_process_order faultAt job r.2 (attempt + 1) n
      ⟨rest.outcome, rest.attempts + 1, 5 :: rest.retriesScheduled,
       rest.exhausted, rest.final⟩
    | o => ⟨o, 1, [], false, r.2⟩

/-- `max_retries=3` from the `@celery_app.task` decorator (`worker.py:118`). -/
def celery_max_retries : Nat := 3

/-- A full delivery of one `process_order` job to the worker, retried by
Celery up to `celery_max_retries` times. -/
def process_order_task (st : WorkerState) (faultAt : Nat → StorageFault) (job : Job) :
    RunResult :=
  run_process_order faultAt job st 0 celery_max_retries

/-- Process-wide telemetry state (`telemetry.py`): the module-level
`_telemetry_initialized` flag and the number of tracer providers /
exporters that have been built and installed. -/
structure TelemetryState where
  initialized : Bool
  providersInstalled : Nat
deriving DecidableEq

/-- Where, if anywhere, an exception interrupts one `setup_telemetry` call:
`ok` — no exception; `beforeInstall` — an exception inside the `try` block
before `trace.set_tracer_provider` runs (nothing installed, flag not set);
`afterInstall` — an exception after the provider is installed and the flag
set (only the trailing test-span block remains). The connectivity probe to
the collector (`telemetry.py:73-81`) catches its own exception and is
therefore never a fault source. -/
inductive SetupFault
  | ok
  | beforeInstall
  | afterInstall
deriving DecidableEq

/-- `setup_telemetry` (`telemetry.py:56-131`): if the process-wide flag is
already set, log and return `False` without touching anything; otherwise
build and install a provider + exporter, set the flag and return `True`,
with exceptions logged and turned into a `False` return. -/
def setup_telemetry (st : TelemetryState) (fault : SetupFault) : Bool × TelemetryState :=
  if st.initialized then
    (false, st)
  else
    match fault with
    | .ok => (true, { initialized := true, providersInstalled := st.providersInstalled + 1 })
    | .beforeInstall => (false, st)
    | .afterInstall => (false, { initialized := true, providersInstalled := st.providersInstalled + 1 })

/-- Response body of `GET /slow-operation` together with the HTTP status
the framework assigns to its normal (non-raising) return, which is 200 on
every path. -/
structure SlowOpResponse where
  http_status : Nat
  status : String
  message : String
  duration_ms : Option Nat
deriving DecidableEq

/-- `slow_operation` (`routes.py:373-422`): sleeps inside a fixed nested
span tree, then with probability 0.3 takes the synthetic-failure branch —
which still returns normally, with `{"status": "error", ...}` as the body —
and otherwise returns `{"status": "success", ..., "duration_ms": 800}`.
`failTriggered` records which branch the `random.random()` draw selected.
The handler takes no database session and touches no persisted entity. -/
def slow_operation (failTriggered : Bool) : SlowOpResponse :=
  if failTriggered then
    { http_status := 200, status := "error",
      message := "Random failure occurred", duration_ms := none }
  else
    { http_status := 200, status := "success",
      message := "Slow operation completed", duration_ms := some 800 }

/-- The `GET /slow-operation` endpoint viewed against the full system
state: the handler is invoked without a database dependency, so the state
passes through untouched. -/
def run_slow_operation (s : SysState) (failTriggered : Bool) : SlowOpResponse × SysState :=
  (slow_operation failTriggered, s)

/-- Character class `[a-f0-9\-]` of the UUID pattern in `normalize_route`
(`metrics.py:189`). -/
def uuidChar (c : Char) : Bool :=
  c.isDigit || (decide ('a' ≤ c) && decide (c ≤ 'f')) || (c == '-')

/-- Character class `[a-f0-9]` of the hash pattern in `normalize_route`
(`metrics.py:192`). -/
def hashChar (c : Char) : Bool :=
  c.isDigit || (decide ('a' ≤ c) && decide (c ≤ 'f'))

/-- Python's `re.sub(r'/\d+', '/{id}', path)` (`metrics.py:186`): scan left
to right; at a `'/'` immediately followed by at least one digit, emit
`"/{id}"`, consume the slash and the maximal digit run, and continue after
it; every other character is copied. The fuel argument (always instantiated
with the input length, which bounds the number of recursive calls) keeps
the recursion structural. -/
def reSubIdF : Nat → List Char → List Char
  | 0, l => l
  | _ + 1, [] => []
  | fuel + 1, c :: rest =>
    if c = '/' then
      if (rest.takeWhile Char.isDigit).length = 0 then
        c :: reSubIdF fuel rest
      else
        '/' :: '{' :: 'i' :: 'd' :: '}' ::
          reSubIdF fuel (rest.drop (rest.takeWhile Char.isDigit).length)
    else
      c :: reSubIdF fuel rest

/-- Python's `re.sub('/' ++ cls-run-of-length-len, '/' ++ repl, _)`, the
common shape of the UUID pass `re.sub(r'/[a-f0-9\-]{36}', '/{uuid}', _)`
(`metrics.py:189`) and the hash pass `re.sub(r'/[a-f0-9]{32}', '/{hash}', _)`
(`metrics.py:192`): at a `'/'` followed by at least `len` characters of the
class, emit `'/'` and the replacement, consume the slash and exactly `len`
class characters, and continue after them. -/
def reSubFixedF (cls : Char → Bool) (len : Nat) (repl : List Char) :
    Nat → List Char → List Char
  | 0, l => l
  | _ + 1, [] => []
  | fuel + 1, c :: rest =>
    if c = '/' ∧ len ≤ (rest.takeWhile cls).length then
      '/' :: (repl ++ reSubFixedF cls len repl fuel (rest.drop len))
    else
      c :: reSubFixedF cls len repl fuel rest

/-- Replacement text of the UUID pass, without its leading slash. -/
def uuidRepl : List Char := ['{', 'u', 'u', 'i', 'd', '}']

/-- Replacement text of the hash pass, without its leading slash. -/
def hashRepl : List Char := ['{', 'h', 'a', 's', 'h', '}']

/-- `normalize_route` (`metrics.py:172-194`): the three `re.sub` passes in
source order — digit runs first, then 36-character `[a-f0-9-]` runs, then
32-character `[a-f0-9]` runs, each pass operating on the previous pass's
output. -/
def normalize_route (path : String) : String :=
  let s1 := reSubIdF path.data.length path.data
  let s2 := reSubFixedF uuidChar 36 uuidRepl s1.length s1
  let s3 := reSubFixedF hashChar 32 hashRepl s2.length s2
  String.mk s3

/-- A character list contains no occurrence of a slash immediately followed
by a digit; on `normalize_route` output this expresses that every
slash-anchored digit run was rewritten to `/\x7bid\x7d`. -/
def noSlashDigit : List Char → Bool
  | a :: b :: rest => (!(a == '/' && b.isDigit)) && noSlashDigit (b :: rest)
  | _ => true

/-- A fresh system state: empty tables, id sequence at 1, empty queue. -/
def emptyState : SysState := ⟨⟨[], [], 1⟩, ⟨[], 0⟩, []⟩

/-- A state holding one product, used to instantiate the happy paths. -/
def oneProductState : SysState := ⟨⟨[⟨1, "Vinyl", 25⟩], [], 1⟩, ⟨[], 0⟩, []⟩

/-- A state holding one product and one pending order. -/
def onePendingOrderState : SysState :=
  ⟨⟨[⟨1, "Vinyl", 25⟩], [⟨1, 1, 2, "pending"⟩], 2⟩, ⟨[], 0⟩, []⟩

/-- A worker state with empty tables and zeroed instruments. -/
def freshWorkerState : WorkerState := ⟨⟨[], [], 1⟩, ⟨0, 0, 0, 0, 0⟩, ⟨0, 0⟩⟩

/-- A worker state holding one product and one pending order, as left
behind by a checkout. -/
def c2WorkerState : WorkerState :=
  ⟨⟨[⟨1, "Album", 10⟩], [⟨1, 1, 2, "pending"⟩], 2⟩, ⟨0, 0, 0, 0, 0⟩, ⟨0, 0⟩⟩

/-- A broker-issued correlation id is never the empty string. -/
theorem taskId_ne_empty (n : Nat) : taskId n ≠ "" := by
  intro h
  have h2 := congrArg String.length h
  simp [taskId, String.length_append] at h2
  exact absurd h2.1 (by decide)

/-- C1: an order-creation request (checkout or createOrder) whose
`product_id` references no existing Product returns a client-visible 404
not-found error, and the whole system state — in particular the orders
table — is unchanged on this failure path. -/
theorem c1_order_creation_notfound (s : SysState) (req : OrderCreate) (d : Bool)
    (h : findProduct s.db req.product_id = none) :
    checkout s req d =
      (Except.error ⟨404, "Product with ID " ++ Nat.repr req.product_id ++ " not found"⟩, s) ∧
    create_order s req =
      (Except.error ⟨404, "Product with ID " ++ Nat.repr req.product_id ++ " not found"⟩, s) := by
  constructor
  · simp [checkout, h]
  · simp [create_order, h]

/-- Witness for C1 at a concrete fresh state and product id 7. -/
theorem c1_order_creation_notfound_witness :
    findProduct emptyState.db 7 = none ∧
    (checkout emptyState ⟨7, 1⟩ false =
      (Except.error ⟨404, "Product with ID " ++ Nat.repr 7 ++ " not found"⟩, emptyState) ∧
     create_order emptyState ⟨7, 1⟩ =
      (Except.error ⟨404, "Product with ID " ++ Nat.repr 7 ++ " not found"⟩, emptyState)) :=
  ⟨rfl, c1_order_creation_notfound emptyState ⟨7, 1⟩ false rfl⟩

/-- C6: checkout on an existing product inserts exactly one Order row with
status `pending`, submits exactly one task job built from the request,
and returns the new order id together with a non-empty correlation id —
on both branches of the optional synthetic-delay path. -/
theorem c6_checkout_valid (s : SysState) (req : OrderCreate) (d : Bool) (p : Product)
    (h : findProduct s.db req.product_id = some p) :
    (checkout s req d).1 =
      Except.ok { message := "Order received, processing in the background",
                  order_id := s.db.nextOrderId,
                  task_id := taskId s.broker.nextTaskId } ∧
    (checkout s req d).2.db.orders =
      s.db.orders ++
        [{ id := s.db.nextOrderId, product_id := req.product_id,
           quantity := req.quantity, status := "pending" }] ∧
    (checkout s req d).2.broker.queue =
      s.broker.queue ++ [{ product_id := req.product_id, quantity := req.quantity }] ∧
    taskId s.broker.nextTaskId ≠ "" := by
  refine ⟨?_, ?_, ?_, taskId_ne_empty _⟩ <;> simp [checkout, h, Broker.submit]

/-- Witness for C6 at a concrete one-product state, on the delay branch. -/
theorem c6_checkout_valid_witness :
    findProduct oneProductState.db 1 = some ⟨1, "Vinyl", 25⟩ ∧
    ((checkout oneProductState ⟨1, 2⟩ true).1 =
      Except.ok { message := "Order received, processing in the background",
                  order_id := oneProductState.db.nextOrderId,
                  task_id := taskId oneProductState.broker.nextTaskId } ∧
     (checkout oneProductState ⟨1, 2⟩ true).2.db.orders =
      oneProductState.db.orders ++
        [{ id := oneProductState.db.nextOrderId, product_id := 1,
           quantity := 2, status := "pending" }] ∧
     (checkout oneProductState ⟨1, 2⟩ true).2.broker.queue =
      oneProductState.broker.queue ++ [{ product_id := 1, quantity := 2 }] ∧
     taskId oneProductState.broker.nextTaskId ≠ "") :=
  ⟨rfl, c6_checkout_valid oneProductState ⟨1, 2⟩ true ⟨1, "Vinyl", 25⟩ rfl⟩

/-- C8: processOrder(orderId) 404s when no such Order exists (state
untouched); otherwise it re-submits a job built from the order's stored
product_id and quantity and returns the new correlation id, leaving the
whole database — every Order row and its status — unchanged. -/
theorem c8_process_specific_order (s : SysState) (oid : Nat) :
    (findOrder s.db oid = none →
      process_specific_order s oid =
        (Except.error ⟨404, "Order with ID " ++ Nat.repr oid ++ " not found"⟩, s)) ∧
    (∀ o : Order, findOrder s.db oid = some o →
      (process_specific_order s oid).1 =
        Except.ok { message := "Order " ++ Nat.repr oid ++ " processing triggered",
                    order_id := oid, task_id := taskId s.broker.nextTaskId } ∧
      (process_specific_order s oid).2.db = s.db ∧
      (process_specific_order s oid).2.broker.queue =
        s.broker.queue ++ [{ product_id := o.product_id, quantity := o.quantity }] ∧
      (process_specific_order s oid).2.background = s.background ∧
      taskId s.broker.nextTaskId ≠ "") := by
  constructor
  · intro h
    simp [process_specific_order, h]
  · intro o h
    refine ⟨?_, ?_, ?_, ?_, taskId_ne_empty _⟩ <;>
      simp [process_specific_order, h, Broker.submit]

/-- Witness for C8 covering both the missing-order branch (at the fresh
state) and the found-order branch (at the one-order state). -/
theorem c8_process_specific_order_witness :
    (findOrder emptyState.db 9 = none ∧
      process_specific_order emptyState 9 =
        (Except.error ⟨404, "Order with ID " ++ Nat.repr 9 ++ " not found"⟩, emptyState)) ∧
    (findOrder onePendingOrderState.db 1 = some ⟨1, 1, 2, "pending"⟩ ∧
      (process_specific_order onePendingOrderState 1).2.db = onePendingOrderState.db ∧
      (process_specific_order onePendingOrderState 1).2.broker.queue =
        onePendingOrderState.broker.queue ++ [{ product_id := 1, quantity := 2 }]) :=
  ⟨⟨rfl, (c8_process_specific_order emptyState 9).1 rfl⟩,
   ⟨rfl,
    ((c8_process_specific_order onePendingOrderState 1).2 ⟨1, 1, 2, "pending"⟩ rfl).2.1,
    ((c8_process_specific_order onePendingOrderState 1).2 ⟨1, 1, 2, "pending"⟩ rfl).2.2.1⟩⟩

/-- C7: the telemetry bootstrap, called twice in one process with the
underlying setup succeeding, returns `true` then `false`; the second call
is a no-op whatever would have happened inside it, and exactly one trace
provider/exporter ends up installed. -/
theorem c7_setup_telemetry_idempotent :
    (setup_telemetry ⟨false, 0⟩ .ok).1 = true ∧
    (setup_telemetry ⟨false, 0⟩ .ok).2.providersInstalled = 1 ∧
    (∀ f : SetupFault,
      setup_telemetry (setup_telemetry ⟨false, 0⟩ .ok).2 f =
        (false, (setup_telemetry ⟨false, 0⟩ .ok).2)) := by
  refine ⟨rfl, rfl, ?_⟩
  intro f
  rfl

/-- C10: slowOperation returns normally on every branch (its result type
has no error component and the endpoint passes the system state through
untouched, performing no database access); the ~30% synthetic failure
branch still yields a success-status HTTP response whose body is
`status = "error"`, so the failure is visible only in the body. -/
theorem c10_slow_operation :
    (∀ (s : SysState) (f : Bool), (run_slow_operation s f).2 = s) ∧
    (∀ f : Bool, (slow_operation f).http_status = 200) ∧
    slow_operation true =
      { http_status := 200, status := "error",
        message := "Random failure occurred", duration_ms := none } ∧
    slow_operation false =
      { http_status := 200, status := "success",
        message := "Slow operation completed", duration_ms := some 800 } := by
  refine ⟨fun s f => rfl, fun f => ?_, rfl, rfl⟩
  cases f <;> rfl

/-- One execution under any transient fault raises to the retry handler
after recording one failed-count, one failure-by-exception and one
duration observation. -/
theorem process_order_transient (st : WorkerState) (f : StorageFault) (job : Job)
    (hf : f ≠ StorageFault.noFault) :
    (process_order st f job).1 = TaskOutcome.raisedTransient ∧
    (process_order st f job).2.metrics.taskFailedCount = st.metrics.taskFailedCount + 1 ∧
    (process_order st f job).2.metrics.taskFailureExc = st.metrics.taskFailureExc + 1 ∧
    (process_order st f job).2.metrics.durationObs = st.metrics.durationObs + 1 := by
  cases f with
  | noFault => exact absurd rfl hf
  | connectFail => exact ⟨rfl, rfl, rfl, rfl⟩
  | queryFail => exact ⟨rfl, rfl, rfl, rfl⟩

/-- A run in which every execution faults transiently performs exactly
`retriesLeft + 1` executions, schedules one fixed 5-second retry per
remaining retry, exhausts the bound, and records one failure and one
duration metric per execution. -/
theorem run_all_transient (job : Job) (faultAt : Nat → StorageFault)
    (h : ∀ n, faultAt n ≠ StorageFault.noFault) :
    ∀ (r : Nat) (st : WorkerState) (a : Nat),
      (run_process_order faultAt job st a r).outcome = TaskOutcome.raisedTransient ∧
      (run_process_order faultAt job st a r).attempts = r + 1 ∧
      (run_process_order faultAt job st a r).retriesScheduled = List.replicate r 5 ∧
      (run_process_order faultAt job st a r).exhausted = true ∧
      (run_process_order faultAt job st a r).final.metrics.taskFailedCount =
        st.metrics.taskFailedCount + (r + 1) ∧
      (run_process_order faultAt job st a r).final.metrics.taskFailureExc =
        st.metrics.taskFailureExc + (r + 1) ∧
      (run_process_order faultAt job st a r).final.metrics.durationObs =
        st.metrics.durationObs + (r + 1) := by
  intro r
  induction r with
  | zero =>
    intro st a
    have hp := process_order_transient st (faultAt a) job (h a)
    simp [run_process_order, hp.1, hp.2.1, hp.2.2.1, hp.2.2.2]
  | succ n ih =>
    intro st a
    have hp := process_order_transient st (faultAt a) job (h a)
    have ihr := ih (process_order st (faultAt a) job).2 (a + 1)
    simp only [run_process_order, hp.1]
    refine ⟨ihr.1, ?_, ?_, ihr.2.2.2.1, ?_, ?_, ?_⟩
    · rw [ihr.2.1]
    · rw [ihr.2.2.1]; rfl
    · rw [ihr.2.2.2.2.1, hp.2.1]; omega
    · rw [ihr.2.2.2.2.2.1, hp.2.2.1]; omega
    · rw [ihr.2.2.2.2.2.2, hp.2.2.2]; omega

/-- C4: a process_order job whose every execution raises a transient
storage fault is executed once and retried exactly `celery_max_retries = 3`
times, each retry scheduled with the fixed 5-second backoff, after which
the run stops with the bound exhausted; one failure metric and one duration
observation are recorded per attempt. -/
theorem c4_worker_retry_bounded (st : WorkerState) (faultAt : Nat → StorageFault) (job : Job)
    (h : ∀ n, faultAt n ≠ StorageFault.noFault) :
    (process_order_task st faultAt job).outcome = TaskOutcome.raisedTransient ∧
    (process_order_task st faultAt job).attempts = celery_max_retries + 1 ∧
    (process_order_task st faultAt job).retriesScheduled =
      List.replicate celery_max_retries 5 ∧
    (process_order_task st faultAt job).exhausted = true ∧
    (process_order_task st faultAt job).final.metrics.taskFailedCount =
      st.metrics.taskFailedCount + (process_order_task st faultAt job).attempts ∧
    (process_order_task st faultAt job).final.metrics.durationObs =
      st.metrics.durationObs + (process_order_task st faultAt job).attempts := by
  have hr := run_all_transient job faultAt h celery_max_retries st 0
  unfold process_order_task
  refine ⟨hr.1, hr.2.1, hr.2.2.1, hr.2.2.2.1, ?_, ?_⟩
  · rw [hr.2.2.2.2.1, hr.2.1]
  · rw [hr.2.2.2.2.2.2, hr.2.1]

/-- Witness for C4: a job whose every delivery hits a storage fault is
executed 4 times in total and retried 3 times with 5-second backoffs. -/
theorem c4_worker_retry_bounded_witness :
    (∀ n : Nat, (fun _ => StorageFault.queryFail) n ≠ StorageFault.noFault) ∧
    (process_order_task freshWorkerState (fun _ => StorageFault.queryFail) ⟨1, 1⟩).attempts =
      celery_max_retries + 1 ∧
    (process_order_task freshWorkerState (fun _ => StorageFault.queryFail) ⟨1, 1⟩).retriesScheduled =
      List.replicate celery_max_retries 5 ∧
    (process_order_task freshWorkerState (fun _ => StorageFault.queryFail) ⟨1, 1⟩).exhausted =
      true := by
  have h : ∀ n : Nat, (fun _ => StorageFault.queryFail) n ≠ StorageFault.noFault := by
    intro n
    show StorageFault.queryFail ≠ StorageFault.noFault
    decide
  have hc := c4_worker_retry_bounded freshWorkerState (fun _ => StorageFault.queryFail) ⟨1, 1⟩ h
  exact ⟨h, hc.2.1, hc.2.2.1, hc.2.2.2.1⟩

/-- When the first execution of the task body returns without raising, the
run consists of that single execution, whatever the retry budget. -/
theorem run_process_order_first_done (faultAt : Nat → StorageFault) (job : Job)
    (st : WorkerState) (a r : Nat)
    (h : (process_order st (faultAt a) job).1 ≠ TaskOutcome.raisedTransient) :
    run_process_order faultAt job st a r =
      ⟨(process_order st (faultAt a) job).1, 1, [], false,
       (process_order st (faultAt a) job).2⟩ := by
  cases r with
  | zero =>
    cases ho : (process_order st (faultAt a) job).1 with
    | raisedTransient => exact absurd ho h
    | terminalFailure reason => simp only [run_process_order, ho]
    | succeeded oid => simp only [run_process_order, ho]
  | succ n =>
    cases ho : (process_order st (faultAt a) job).1 with
    | raisedTransient => exact absurd ho h
    | terminalFailure reason => simp only [run_process_order, ho]
    | succeeded oid => simp only [run_process_order, ho]

/-- C5: a process_order job whose product reference is missing resolves on
the first execution to the terminal `product_not_found` failure result,
records one failure metric, schedules no retry (the attempt count stays at
1, the retry bound untouched), and leaves the database unchanged. -/
theorem c5_worker_terminal_not_found (st : WorkerState) (faultAt : Nat → StorageFault)
    (job : Job) (h0 : faultAt 0 = StorageFault.noFault)
    (hp : findProduct st.db job.product_id = none) :
    (process_order_task st faultAt job).outcome =
      TaskOutcome.terminalFailure "product_not_found" ∧
    (process_order_task st faultAt job).attempts = 1 ∧
    (process_order_task st faultAt job).retriesScheduled = [] ∧
    (process_order_task st faultAt job).exhausted = false ∧
    (process_order_task st faultAt job).final.metrics.taskFailedCount =
      st.metrics.taskFailedCount + 1 ∧
    (process_order_task st faultAt job).final.metrics.pushCount =
      st.metrics.pushCount + 1 ∧
    (process_order_task st faultAt job).final.db = st.db := by
  have hbody : process_order st (faultAt 0) job =
      (TaskOutcome.terminalFailure "product_not_found",
       { st with
          metrics :=
            { st.metrics with
                taskFailedCount := st.metrics.taskFailedCount + 1,
                pushCount := st.metrics.pushCount + 1 },
          conns := ⟨st.conns.opened + 1, st.conns.closed + 1⟩ }) := by
    rw [h0]; simp [process_order, hp]
  have hrun := run_process_order_first_done faultAt job st 0 celery_max_retries
    (by rw [hbody]; intro hc; cases hc)
  unfold process_order_task
  rw [hrun, hbody]
  exact ⟨rfl, rfl, rfl, rfl, rfl, rfl, rfl⟩

/-- Witness for C5 at a fresh worker state whose products table is empty. -/
theorem c5_worker_terminal_not_found_witness :
    (fun _ => StorageFault.noFault) 0 = StorageFault.noFault ∧
    findProduct freshWorkerState.db 3 = none ∧
    (process_order_task freshWorkerState (fun _ => StorageFault.noFault) ⟨3, 1⟩).outcome =
      TaskOutcome.terminalFailure "product_not_found" ∧
    (process_order_task freshWorkerState (fun _ => StorageFault.noFault) ⟨3, 1⟩).attempts = 1 ∧
    (process_order_task freshWorkerState (fun _ => StorageFault.noFault) ⟨3, 1⟩).retriesScheduled =
      [] :=
  ⟨rfl, rfl,
   (c5_worker_terminal_not_found freshWorkerState (fun _ => StorageFault.noFault) ⟨3, 1⟩
      rfl rfl).1,
   (c5_worker_terminal_not_found freshWorkerState (fun _ => StorageFault.noFault) ⟨3, 1⟩
      rfl rfl).2.1,
   (c5_worker_terminal_not_found freshWorkerState (fun _ => StorageFault.noFault) ⟨3, 1⟩
      rfl rfl).2.2.1⟩

/-- Every exit path of one task-body execution closes exactly the storage
connections it opened. -/
theorem process_order_conns_delta (st : WorkerState) (fault : StorageFault) (job : Job) :
    ∃ d : Nat,
      (process_order st fault job).2.conns.opened = st.conns.opened + d ∧
      (process_order st fault job).2.conns.closed = st.conns.closed + d := by
  cases fault with
  | connectFail => exact ⟨0, rfl, rfl⟩
  | queryFail => exact ⟨1, rfl, rfl⟩
  | noFault =>
    cases hp : findProduct st.db job.product_id with
    | none => refine ⟨1, ?_, ?_⟩ <;> simp [process_order, hp]
    | some p => refine ⟨1, ?_, ?_⟩ <;> simp [process_order, hp]

/-- Across a whole retried run, opened and closed connection counts grow by
the same amount. -/
theorem run_conns_delta (faultAt : Nat → StorageFault) (job : Job) :
    ∀ (r : Nat) (st : WorkerState) (a : Nat),
      ∃ d : Nat,
        (run_process_order faultAt job st a r).final.conns.opened = st.conns.opened + d ∧
        (run_process_order faultAt job st a r).final.conns.closed = st.conns.closed + d := by
  intro r
  induction r with
  | zero =>
    intro st a
    obtain ⟨d, h1, h2⟩ := process_order_conns_delta st (faultAt a) job
    simp only [run_process_order]
    split
    · exact ⟨d, h1, h2⟩
    · exact ⟨d, h1, h2⟩
  | succ n ih =>
    intro st a
    obtain ⟨d, h1, h2⟩ := process_order_conns_delta st (faultAt a) job
    simp only [run_process_order]
    split
    · obtain ⟨d2, h3, h4⟩ := ih (process_order st (faultAt a) job).2 (a + 1)
      exact ⟨d + d2, by rw [h3, h1]; omega, by rw [h4, h2]; omega⟩
    · exact ⟨d, h1, h2⟩

/-- C9: on every exit path of the worker's process_order task — terminal
failure, success, and each transiently-failed attempt in a retried run —
the storage connections opened during the execution are all released:
the closed count advances in lockstep with the opened count, so no retried
attempt leaks a connection. -/
theorem c9_connections_released :
    (∀ (st : WorkerState) (fault : StorageFault) (job : Job),
      ∃ d : Nat,
        (process_order st fault job).2.conns.opened = st.conns.opened + d ∧
        (process_order st fault job).2.conns.closed = st.conns.closed + d) ∧
    (∀ (faultAt : Nat → StorageFault) (job : Job) (st : WorkerState) (a r : Nat),
      ∃ d : Nat,
        (run_process_order faultAt job st a r).final.conns.opened = st.conns.opened + d ∧
        (run_process_order faultAt job st a r).final.conns.closed = st.conns.closed + d) :=
  ⟨process_order_conns_delta, fun faultAt job st a r => run_conns_delta faultAt job r st a⟩

/-- One task-body execution only ever appends to the orders table. -/
theorem process_order_orders_extend (st : WorkerState) (fault : StorageFault) (job : Job) :
    ∃ t : List Order, (process_order st fault job).2.db.orders = st.db.orders ++ t := by
  cases fault with
  | connectFail => exact ⟨[], by simp [process_order]⟩
  | queryFail => exact ⟨[], by simp [process_order]⟩
  | noFault =>
    cases hp : findProduct st.db job.product_id with
    | none => exact ⟨[], by simp [process_order, hp]⟩
    | some p =>
      refine ⟨[{ id := st.db.nextOrderId, product_id := job.product_id,
                 quantity := job.quantity, status := "processed" }], ?_⟩
      simp [process_order, hp]

/-- A whole retried run only ever appends to the orders table. -/
theorem run_orders_extend (faultAt : Nat → StorageFault) (job : Job) :
    ∀ (r : Nat) (st : WorkerState) (a : Nat),
      ∃ t : List Order,
        (run_process_order faultAt job st a r).final.db.orders = st.db.orders ++ t := by
  intro r
  induction r with
  | zero =>
    intro st a
    obtain ⟨t, ht⟩ := process_order_orders_extend st (faultAt a) job
    simp only [run_process_order]
    split
    · exact ⟨t, ht⟩
    · exact ⟨t, ht⟩
  | succ n ih =>
    intro st a
    obtain ⟨t, ht⟩ := process_order_orders_extend st (faultAt a) job
    simp only [run_process_order]
    split
    · obtain ⟨t2, ht2⟩ := ih (process_order st (faultAt a) job).2 (a + 1)
      exact ⟨t ++ t2, by rw [ht2, ht, List.append_assoc]⟩
    · exact ⟨t, ht⟩

/-- C2 (amended): no component of the system ever mutates an existing
Order row. Every request handler and every worker execution — single or
retried — leaves the pre-state orders list as a prefix of the post-state
orders list, element for element, so an order's status never changes after
creation; in particular no request handler changes it. (The worker records
completion by inserting a new row with status `processed`, not by
transitioning the original order — see the counterexample.) -/
theorem c2_no_existing_order_mutated :
    (∀ (s : SysState) (req : OrderCreate) (d : Bool),
      ∃ t : List Order, (checkout s req d).2.db.orders = s.db.orders ++ t) ∧
    (∀ (s : SysState) (req : OrderCreate),
      ∃ t : List Order, (create_order s req).2.db.orders = s.db.orders ++ t) ∧
    (∀ (s : SysState) (oid : Nat),
      (process_specific_order s oid).2.db.orders = s.db.orders) ∧
    (∀ (st : WorkerState) (fault : StorageFault) (job : Job),
      ∃ t : List Order, (process_order st fault job).2.db.orders = st.db.orders ++ t) ∧
    (∀ (faultAt : Nat → StorageFault) (job : Job) (st : WorkerState) (a r : Nat),
      ∃ t : List Order,
        (run_process_order faultAt job st a r).final.db.orders = st.db.orders ++ t) := by
  refine ⟨?_, ?_, ?_, process_order_orders_extend,
    fun faultAt job st a r => run_orders_extend faultAt job r st a⟩
  · intro s req d
    cases hp : findProduct s.db req.product_id with
    | none => exact ⟨[], by simp [checkout, hp]⟩
    | some p =>
      refine ⟨[{ id := s.db.nextOrderId, product_id := req.product_id,
                 quantity := req.quantity, status := "pending" }], ?_⟩
      simp [checkout, hp]
  · intro s req
    cases hp : findProduct s.db req.product_id with
    | none => exact ⟨[], by simp [create_order, hp]⟩
    | some p =>
      refine ⟨[{ id := s.db.nextOrderId, product_id := req.product_id,
                 quantity := req.quantity, status := "pending" }], ?_⟩
      simp [create_order, hp]
  · intro s oid
    cases ho : findOrder s.db oid with
    | none => simp [process_specific_order, ho]
    | some o => simp [process_specific_order, ho, Broker.submit]

/-- C2 counterexample: the worker completes the queued task for the
pending order successfully, yet the existing Order row's status is still
`pending` afterwards — the claimed status transition of the existing row
never happens; the worker instead inserted a second row with status
`processed`. -/
theorem c2_counterexample_no_status_transition :
    (process_order_task c2WorkerState (fun _ => StorageFault.noFault) ⟨1, 2⟩).outcome =
      TaskOutcome.succeeded 2 ∧
    (process_order_task c2WorkerState (fun _ => StorageFault.noFault) ⟨1, 2⟩).final.db.orders =
      [⟨1, 1, 2, "pending"⟩, ⟨2, 1, 2, "processed"⟩] ∧
    findOrder (process_order_task c2WorkerState (fun _ => StorageFault.noFault) ⟨1, 2⟩).final.db
        1 = some ⟨1, 1, 2, "pending"⟩ := by
  refine ⟨rfl, rfl, rfl⟩

/-- Prepending a non-slash character preserves the slash-digit freedom. -/
theorem nsd_cons_ne (c : Char) (l : List Char) (hc : c ≠ '/')
    (hl : noSlashDigit l = true) : noSlashDigit (c :: l) = true := by
  cases l with
  | nil => rfl
  | cons b r => simp [noSlashDigit, hc, hl]

/-- Prepending a slash preserves slash-digit freedom when the next
character is not a digit. -/
theorem nsd_cons_slash (l : List Char)
    (hh : l.head?.all (fun b => !b.isDigit) = true)
    (hl : noSlashDigit l = true) : noSlashDigit ('/' :: l) = true := by
  cases l with
  | nil => rfl
  | cons b r =>
    simp only [List.head?_cons, Option.all_some] at hh
    simp [noSlashDigit, hh, hl]

/-- Slash-digit freedom passes to the tail. -/
theorem nsd_tail (c : Char) (l : List Char)
    (h : noSlashDigit (c :: l) = true) : noSlashDigit l = true := by
  cases l with
  | nil => rfl
  | cons b r =>
    simp only [noSlashDigit, Bool.and_eq_true] at h
    exact h.2

/-- After a slash in a slash-digit-free list, the next character is not a
digit. -/
theorem nsd_slash_inv (l : List Char)
    (h : noSlashDigit ('/' :: l) = true) :
    l.head?.all (fun b => !b.isDigit) = true := by
  cases l with
  | nil => rfl
  | cons b r =>
    simp only [noSlashDigit, Bool.and_eq_true, Bool.not_eq_true'] at h
    simp only [List.head?_cons, Option.all_some]
    simpa using h.1

/-- Slash-digit freedom is stable under dropping a prefix. -/
theorem nsd_drop : ∀ (n : Nat) (l : List Char),
    noSlashDigit l = true → noSlashDigit (l.drop n) = true := by
  intro n
  induction n with
  | zero => intro l h; exact h
  | succ m ih =>
    intro l h
    cases l with
    | nil => rfl
    | cons c r => exact ih r (nsd_tail c r h)

/-- The digit pass never changes the first character of the path. -/
theorem reSubIdF_head : ∀ (fuel : Nat) (l : List Char),
    (reSubIdF fuel l).head? = l.head? := by
  intro fuel l
  cases fuel with
  | zero => rfl
  | succ n =>
    cases l with
    | nil => rfl
    | cons c rest =>
      by_cases hc : c = '/'
      · subst hc
        by_cases hd : (rest.takeWhile Char.isDigit).length = 0 <;>
          simp [reSubIdF, hd]
      · simp [reSubIdF, hc]

/-- If the maximal digit run at the head of a list is empty, the head is
not a digit. -/
theorem takeWhile_digit_zero (l : List Char)
    (h : (l.takeWhile Char.isDigit).length = 0) :
    l.head?.all (fun b => !b.isDigit) = true := by
  cases l with
  | nil => rfl
  | cons b r =>
    simp only [List.head?_cons, Option.all_some]
    by_cases hb : b.isDigit
    · rw [List.takeWhile_cons, if_pos hb] at h
      simp at h
    · simp [hb]

/-- The output of the digit pass contains no slash immediately followed by
a digit: every slash-anchored digit run was replaced. -/
theorem reSubIdF_nsd : ∀ (fuel : Nat) (l : List Char), l.length ≤ fuel →
    noSlashDigit (reSubIdF fuel l) = true := by
  intro fuel
  induction fuel with
  | zero =>
    intro l h
    rw [List.length_eq_zero.mp (Nat.le_zero.mp h)]
    rfl
  | succ n ih =>
    intro l h
    cases l with
    | nil => rfl
    | cons c rest =>
      have hrest : rest.length ≤ n := by
        simpa using Nat.succ_le_succ_iff.mp (by simpa using h)
      by_cases hc : c = '/'
      · subst hc
        by_cases hd : (rest.takeWhile Char.isDigit).length = 0
        · simp only [reSubIdF, if_pos rfl, if_pos hd]
          apply nsd_cons_slash
          · rw [reSubIdF_head]
            exact takeWhile_digit_zero rest hd
          · exact ih rest hrest
        · simp only [reSubIdF, if_pos rfl, if_neg hd]
          have hrec : noSlashDigit
              (reSubIdF n (rest.drop (rest.takeWhile Char.isDigit).length)) = true := by
            apply ih
            calc (rest.drop (rest.takeWhile Char.isDigit).length).length
                ≤ rest.length := by
                  rw [List.length_drop]
                  omega
              _ ≤ n := hrest
          apply nsd_cons_slash
          · rfl
          · apply nsd_cons_ne _ _ (by decide)
            apply nsd_cons_ne _ _ (by decide)
            apply nsd_cons_ne _ _ (by decide)
            apply nsd_cons_ne _ _ (by decide)
            exact hrec
      · simp only [reSubIdF, if_neg hc]
        exact nsd_cons_ne _ _ hc (ih rest hrest)

/-- The fixed-length passes never change the first character of the path. -/
theorem reSubFixedF_head (cls : Char → Bool) (len : Nat) (repl : List Char) :
    ∀ (fuel : Nat) (l : List Char),
      (reSubFixedF cls len repl fuel l).head? = l.head? := by
  intro fuel l
  cases fuel with
  | zero => rfl
  | succ n =>
    cases l with
    | nil => rfl
    | cons c rest =>
      by_cases hc : c = '/' ∧ len ≤ (rest.takeWhile cls).length
      · simp [reSubFixedF, hc, hc.1]
      · simp [reSubFixedF, hc]

/-- A fixed-length pass preserves slash-digit freedom whenever splicing its
replacement behind a slash does. -/
theorem reSubFixedF_nsd (cls : Char → Bool) (len : Nat) (repl : List Char)
    (hrep : ∀ rec : List Char, noSlashDigit rec = true →
      noSlashDigit ('/' :: (repl ++ rec)) = true) :
    ∀ (fuel : Nat) (l : List Char), l.length ≤ fuel →
      noSlashDigit l = true → noSlashDigit (reSubFixedF cls len repl fuel l) = true := by
  intro fuel
  induction fuel with
  | zero => intro l _ hl; exact hl
  | succ n ih =>
    intro l h hl
    cases l with
    | nil => rfl
    | cons c rest =>
      have hrest : rest.length ≤ n := by
        simpa using Nat.succ_le_succ_iff.mp (by simpa using h)
      have hltail : noSlashDigit rest = true := nsd_tail c rest hl
      by_cases hm : c = '/' ∧ len ≤ (rest.takeWhile cls).length
      · simp only [reSubFixedF, if_pos hm]
        apply hrep
        apply ih
        · rw [List.length_drop]
          omega
        · exact nsd_drop len rest hltail
      · simp only [reSubFixedF, if_neg hm]
        by_cases hc : c = '/'
        · subst hc
          apply nsd_cons_slash
          · rw [reSubFixedF_head]
            exact nsd_slash_inv rest hl
          · exact ih rest hrest hltail
        · exact nsd_cons_ne _ _ hc (ih rest hrest hltail)

/-- Splicing the UUID replacement behind a slash preserves slash-digit
freedom. -/
theorem uuidRepl_splice (rec : List Char) (h : noSlashDigit rec = true) :
    noSlashDigit ('/' :: (uuidRepl ++ rec)) = true := by
  show noSlashDigit ('/' :: '{' :: 'u' :: 'u' :: 'i' :: 'd' :: '}' :: rec) = true
  apply nsd_cons_slash
  · rfl
  apply nsd_cons_ne _ _ (by decide)
  apply nsd_cons_ne _ _ (by decide)
  apply nsd_cons_ne _ _ (by decide)
  apply nsd_cons_ne _ _ (by decide)
  apply nsd_cons_ne _ _ (by decide)
  apply nsd_cons_ne _ _ (by decide)
  exact h

/-- Splicing the hash replacement behind a slash preserves slash-digit
freedom. -/
theorem hashRepl_splice (rec : List Char) (h : noSlashDigit rec = true) :
    noSlashDigit ('/' :: (hashRepl ++ rec)) = true := by
  show noSlashDigit ('/' :: '{' :: 'h' :: 'a' :: 's' :: 'h' :: '}' :: rec) = true
  apply nsd_cons_slash
  · rfl
  apply nsd_cons_ne _ _ (by decide)
  apply nsd_cons_ne _ _ (by decide)
  apply nsd_cons_ne _ _ (by decide)
  apply nsd_cons_ne _ _ (by decide)
  apply nsd_cons_ne _ _ (by decide)
  apply nsd_cons_ne _ _ (by decide)
  exact h

/-- The full route normalization leaves no slash-anchored digit run in its
output. -/
theorem normalize_route_nsd (path : String) :
    noSlashDigit (normalize_route path).data = true := by
  show noSlashDigit (reSubFixedF hashChar 32 hashRepl _ _) = true
  apply reSubFixedF_nsd _ _ _ hashRepl_splice _ _ (Nat.le_refl _)
  apply reSubFixedF_nsd _ _ _ uuidRepl_splice _ _ (Nat.le_refl _)
  exact reSubIdF_nsd _ _ (Nat.le_refl _)

/-- C3 counterexample: on the path `/x1y` the digit run `1` is not
immediately preceded by a slash, and normalize_route leaves it — and hence
the whole path — unchanged, instead of producing `/x\x7bid\x7dy` as the
claimed replacement of every digit run would. -/
theorem c3_counterexample_unanchored_digit_run :
    normalize_route "/x1y" = "/x1y" ∧
    (normalize_route "/x1y").data.any Char.isDigit = true ∧
    normalize_route "/x1y" ≠ "/x{id}y" := by
  refine ⟨by decide, by decide, by decide⟩

/-- C3 (amended): normalize_route applies the three substitutions of the
source in order — digit substitution first, then the 36-character
hyphenated-hex pass, then the 32-character hex pass — but each pattern is
anchored at a slash: every maximal digit run immediately preceded by `/`
is replaced by `\x7bid\x7d` (so no slash-digit sequence survives in any
output), a slash followed by 36 hyphenated-hex characters becomes
`/\x7buuid\x7d`, a slash followed by 32 hex characters becomes
`/\x7bhash\x7d`, and digit runs not anchored at a slash are left in
place; e.g. `/orders/42/items` maps to `/orders/\x7bid\x7d/items`. -/
theorem c3_normalize_route_amended :
    (∀ path : String, noSlashDigit (normalize_route path).data = true) ∧
    normalize_route "/orders/42/items" = "/orders/{id}/items" ∧
    normalize_route "/api/v1/orders/789" = "/api/v1/orders/{id}" ∧
    normalize_route "/u/aaaaaaaa-bbcc-ddee-ffaa-bbccddeeffaa" = "/u/{uuid}" ∧
    normalize_route "/files/abcdefabcdefabcdefabcdefabcdefab" = "/files/{hash}" :=
  ⟨normalize_route_nsd, by decide, by decide, by decide, by decide⟩

end RecordsStore
